import Mathlib

/-!
Verification of `torchtext/experimental/datasets/question_answer.py`.

The Python module is shallowly embedded below: strings are Lean `String`s,
Python lists are Lean `List`s, Python `int` is `Int`, fallible operations
(list indexing, exceptions) return `Option`/`Except`.  Helpers that the module
imports from elsewhere in the repository (`torchtext.data.datasets_utils`,
`torchtext.experimental.functional`) are modelled from the specification and
marked as such in their doc comments.
-/

/-- Python list indexing `xs[i]` for an `int` index: non-negative indices index
from the front, negative indices in `[-len, 0)` index from the back, anything
else raises `IndexError` (modelled as `none`). -/
def pyGet (xs : List α) (i : Int) : Option α :=
  if 0 ≤ i then xs[i.toNat]?
  else if 0 ≤ (xs.length : Int) + i then xs[((xs.length : Int) + i).toNat]?
  else none

/-- Python string slice `s[:k]` for an `int` bound: a non-negative `k` keeps the
first `k` characters (clamped to the length), a negative `k` drops the last
`-k` characters (clamped to the empty string). -/
def sliceTo (s : String) (k : Int) : String :=
  if 0 ≤ k then ⟨s.data.take k.toNat⟩
  else ⟨s.data.take (s.data.length - (-k).toNat)⟩

/-- A tokenizer: a callable from a string to an ordered list of token strings. -/
abbrev Tokenizer := String → List String

/-- A vocabulary, reduced to the one capability this module uses of it:
lookup from token to a non-negative integer index (with the unknown-token
fallback folded into the function itself). -/
abbrev Vocab := String → Nat

/-- Wrap an integer into the signed 64-bit range, the element type of a
`torch.long` tensor. -/
def wrap64 (x : Int) : Int := (x + 2 ^ 63) % 2 ^ 64 - 2 ^ 63

/-- Modelled from the spec: `totensor(dtype=torch.long)` from
`torchtext.experimental.functional` (not under `src/`) converts an ordered
sequence of plain integers into a fixed-width 64-bit signed integer tensor;
the tensor is modelled as the list of its (wrapped) elements. -/
def totensor (xs : List Int) : List Int := xs.map wrap64

/-- Modelled from the spec: `vocab_func(vocab)` from
`torchtext.experimental.functional` (not under `src/`) maps each token of a
token list to its vocabulary index. -/
def vocab_func (v : Vocab) (tokens : List String) : List Int :=
  tokens.map (fun t => (v t : Int))

/-- Modelled from the spec: `sequential_transforms` from
`torchtext.experimental.functional` (not under `src/`) composes the given
transforms left to right into a single callable.  The module applies it to the
three-stage pipeline tokenizer, vocabulary lookup, tensor conversion (its
one-argument use `sequential_transforms(tokenizer)` is the identity
composition and is inlined below). -/
def sequential_transforms (f : α → β) (g : β → γ) (h : γ → δ) : α → δ :=
  fun x => h (g (f x))

/-- One raw example of a split: `(context, question, answers, answer_start)`. -/
structure RawExample where
  context : String
  question : String
  answers : List String
  answer_start : List Int
deriving DecidableEq

/-- The transforms dictionary handed to `QuestionAnswerDataset`: one callable
per field name, as built by `_setup_datasets`
(`{'context': ..., 'question': ..., 'answers': ..., 'ans_pos': ...}`). -/
structure Transforms where
  context : String → List Int
  question : String → List Int
  answers : String → List Int
  ans_pos : List Int → List Int

/-- The dataset class: raw data for one split, the shared vocabulary and the
shared transforms dictionary. -/
structure QuestionAnswerDataset where
  data : List RawExample
  vocab : Vocab
  transforms : Transforms

/-- The body of the `else` / `if` branch of the per-answer loop of
`__getitem__` (lines 48-55): the span appended to `_ans_pos` for one answer
with start character offset `st`. -/
def spanOf (tr : Transforms) (raw_context : String) (ansText : String) (st : Int) :
    List Int :=
  if st = -1 then tr.ans_pos [-1, -1]
  else
    let ans_start_token_idx : Int := ((tr.context (sliceTo raw_context st)).length : Int)
    let ans_end_token_idx : Int :=
      ans_start_token_idx + ((tr.answers ansText).length : Int) - 1
    tr.ans_pos [ans_start_token_idx, ans_end_token_idx]

/-- The per-answer loop of `__getitem__` (lines 45-55): it runs over the
indices of `raw_answer_start` and accesses `raw_answers[idx]` at each; walking
the two lists together index by index is the same access pattern, with `none`
modelling the `IndexError` raised when `raw_answers` is too short. -/
def processAnswers (tr : Transforms) (raw_context : String) :
    List Int → List String → Option (List (List Int) × List (List Int))
  | [], _ => some ([], [])
  | _ :: _, [] => none
  | st :: sts, a :: rest =>
    match processAnswers tr raw_context sts rest with
    | none => none
    | some (encs, poss) => some (tr.answers a :: encs, spanOf tr raw_context a st :: poss)

/-- `QuestionAnswerDataset.__getitem__` (lines 40-56). -/
def QuestionAnswerDataset.getitem (d : QuestionAnswerDataset) (i : Int) :
    Option (List Int × List Int × List (List Int) × List (List Int)) :=
  match pyGet d.data i with
  | none => none
  | some ex =>
    match processAnswers d.transforms ex.context ex.answer_start ex.answers with
    | none => none
    | some (encs, poss) =>
      some (d.transforms.context ex.context, d.transforms.question ex.question, encs, poss)

/-- `QuestionAnswerDataset.__len__` (lines 58-59). -/
def QuestionAnswerDataset.len (d : QuestionAnswerDataset) : Nat :=
  d.data.length

/-- `QuestionAnswerDataset.get_vocab` (lines 61-62). -/
def QuestionAnswerDataset.get_vocab (d : QuestionAnswerDataset) : Vocab :=
  d.vocab

/-- The split argument of the factory: either a single split name given as a
string, or a collection of split names. -/
inductive SplitArg where
  | single (name : String)
  | multi (names : List String)
deriving DecidableEq

/-- The list of split names an argument denotes. -/
def splitNames : SplitArg → List String
  | .single n => [n]
  | .multi ns => ns

/-- The errors `_setup_datasets` can raise at factory-call time:
a usage error for an unrecognized split name (from `_check_default_set` /
`_wrap_datasets`) and the `TypeError` for a missing vocabulary. -/
inductive FactoryError where
  | valueError
  | typeError
deriving DecidableEq

/-- Modelled from the spec: `_check_default_set` from
`torchtext.data.datasets_utils` (not under `src/`) validates every requested
split name against the allowed set and fails with a usage error on any
unrecognized name, returning the names otherwise. -/
def check_default_set (split_ : SplitArg) (allowed : List String) :
    Except FactoryError (List String) :=
  if ∀ n ∈ splitNames split_, n ∈ allowed then .ok (splitNames split_)
  else .error FactoryError.valueError

/-- Modelled from the spec: `_wrap_datasets` from
`torchtext.data.datasets_utils` (not under `src/`) mirrors the shape of the
split argument: for a single split name given as a string it returns the one
dataset directly, otherwise it returns the collection. -/
inductive Wrapped (α : Type) where
  | single (d : α)
  | multi (ds : List α)

/-- The datasets held by a wrapped result, as a list. -/
def Wrapped.toList : Wrapped α → List α
  | .single d => [d]
  | .multi ds => ds

/-- Modelled from the spec: `_wrap_datasets` returns the single dataset when
the split argument was a single string (failing if the count disagrees), and
the collection otherwise. -/
def wrap_datasets (ds : List α) (split_ : SplitArg) : Except FactoryError (Wrapped α) :=
  match split_ with
  | .multi _ => .ok (.multi ds)
  | .single _ =>
    match ds with
    | [d] => .ok (.single d)
    | _ => .error FactoryError.valueError

/-- Lines 66-68: the tokenizer defaults to `get_tokenizer('basic_english')`
when none is passed; the basic tokenizer itself is an external collaborator
and is a parameter of the model. -/
def resolveTokenizer (basicTok : Tokenizer) (tokenizer? : Option Tokenizer) : Tokenizer :=
  match tokenizer? with
  | none => basicTok
  | some t => t

/-- The generator `apply_transform` (lines 77-82): for each raw example it
yields the tokenized context, then the tokenized question, then the
concatenation (by the `tok_ans += ...` loop) of the tokenized answers. -/
def apply_transform (text_transform : Tokenizer) : List RawExample → List (List String)
  | [] => []
  | ex :: rest =>
    let tok_ans := ex.answers.foldl (fun acc item => acc ++ text_transform item) []
    (text_transform ex.context ++ text_transform ex.question ++ tok_ans) ::
      apply_transform text_transform rest

/-- Lines 72-84: when a vocabulary is passed it is used as is; otherwise a
`TypeError` is raised unless `train` was requested, in which case the
vocabulary is built (by the external `build_vocab_from_iterator`, a parameter
of the model) from the token stream `apply_transform` yields on the train
split. -/
def resolveVocab (build : List (List String) → Vocab) (text_transform : Tokenizer)
    (trainData : List RawExample) (vocab? : Option Vocab) (split : List String) :
    Except FactoryError Vocab :=
  match vocab? with
  | some v => .ok v
  | none =>
    if "train" ∈ split then
      .ok (build (apply_transform text_transform trainData))
    else .error FactoryError.typeError

/-- Lines 86-88: the shared transforms dictionary; context, question and
answers all get the one composed text transform
`sequential_transforms(text_transform, vocab_func(vocab), totensor(torch.long))`,
while `ans_pos` gets only `totensor(dtype=torch.long)`. -/
def mkTransforms (tok : Tokenizer) (v : Vocab) : Transforms :=
  let text_transform := sequential_transforms tok (vocab_func v) totensor
  { context := text_transform, question := text_transform,
    answers := text_transform, ans_pos := totensor }

/-- `_setup_datasets` (lines 65-90).  The external collaborators are
parameters: `basicTok` is `get_tokenizer('basic_english')`, `build` is
`build_vocab_from_iterator`, and `load root name` is the materialized list of
raw examples `raw.DATASETS[dataset_name](root=root, split=...)` yields for
split `name` (the raw loader is delegated and out of scope). -/
def setup_datasets (basicTok : Tokenizer) (build : List (List String) → Vocab)
    (load : String → String → List RawExample) (root : String)
    (vocab? : Option Vocab) (tokenizer? : Option Tokenizer) (split_ : SplitArg) :
    Except FactoryError (Wrapped QuestionAnswerDataset) :=
  let tokenizer := resolveTokenizer basicTok tokenizer?
  let text_transform := tokenizer
  match check_default_set split_ ["train", "dev"] with
  | .error e => .error e
  | .ok split =>
    let raw_data := fun name => load root name
    match resolveVocab build text_transform (raw_data "train") vocab? split with
    | .error e => .error e
    | .ok vocab =>
      wrap_datasets
        (split.map (fun item =>
          QuestionAnswerDataset.mk (raw_data item) vocab (mkTransforms tokenizer vocab)))
        split_

/-- The default argument values of a factory function, read off its `def`
line. -/
structure FactoryDefaults where
  root : String
  vocab : Option Vocab
  tokenizer : Option Tokenizer
  split : SplitArg

/-- The defaults of `SQuAD1` (line 93):
`root='.data', vocab=None, tokenizer=None, split=('train', 'dev')`. -/
def SQuAD1_defaults : FactoryDefaults :=
  { root := ".data", vocab := none, tokenizer := none,
    split := SplitArg.multi ["train", "dev"] }

/-- The defaults of `SQuAD2` (line 127), identical to those of `SQuAD1`. -/
def SQuAD2_defaults : FactoryDefaults :=
  { root := ".data", vocab := none, tokenizer := none,
    split := SplitArg.multi ["train", "dev"] }

/-- `SQuAD1` (lines 93-124): delegates to `_setup_datasets` with the SQuAD1
raw loader. -/
def SQuAD1 (basicTok : Tokenizer) (build : List (List String) → Vocab)
    (load : String → String → List RawExample) (root : String)
    (vocab? : Option Vocab) (tokenizer? : Option Tokenizer) (split_ : SplitArg) :
    Except FactoryError (Wrapped QuestionAnswerDataset) :=
  setup_datasets basicTok build load root vocab? tokenizer? split_

/-- `SQuAD2` (lines 127-158): delegates to `_setup_datasets` with the SQuAD2
raw loader. -/
def SQuAD2 (basicTok : Tokenizer) (build : List (List String) → Vocab)
    (load : String → String → List RawExample) (root : String)
    (vocab? : Option Vocab) (tokenizer? : Option Tokenizer) (split_ : SplitArg) :
    Except FactoryError (Wrapped QuestionAnswerDataset) :=
  setup_datasets basicTok build load root vocab? tokenizer? split_

/-- A concrete whitespace tokenizer, used to instantiate the claims that speak
of one (the tokenizer itself is an external, pluggable collaborator). -/
def wordsAux : List Char → List Char → List (List Char)
  | [], cur => if cur.isEmpty then [] else [cur.reverse]
  | c :: cs, cur =>
    if c = ' ' then
      if cur.isEmpty then wordsAux cs [] else cur.reverse :: wordsAux cs []
    else wordsAux cs (c :: cur)

/-- Split a string on spaces, dropping empty pieces. -/
def whitespaceTokenize (s : String) : List String :=
  (wordsAux s.data []).map (fun cs => ⟨cs⟩)

/-- Decide whether a factory call raised. -/
def Except.isErr : Except ε α → Bool
  | .error _ => true
  | .ok _ => false

/-- The vocabulary `_setup_datasets` ends up using when it does not raise:
the one supplied, or else the one built from the train token stream. -/
def chosenVocab (build : List (List String) → Vocab) (tok : Tokenizer)
    (trainData : List RawExample) : Option Vocab → Vocab
  | some v => v
  | none => build (apply_transform tok trainData)

lemma foldl_append_tokens (tt : Tokenizer) (l : List String) :
    ∀ acc : List String,
      l.foldl (fun acc item => acc ++ tt item) acc = acc ++ (l.map tt).flatten := by
  induction l with
  | nil => intro acc; simp
  | cons a l ih => intro acc; simp [List.foldl_cons, ih, List.append_assoc]

lemma apply_transform_eq_map (tt : Tokenizer) (data : List RawExample) :
    apply_transform tt data =
      data.map (fun ex => tt ex.context ++ tt ex.question ++ (ex.answers.map tt).flatten) := by
  induction data with
  | nil => rfl
  | cons ex rest ih => simp [apply_transform, ih, foldl_append_tokens]

lemma processAnswers_spec (tr : Transforms) (ctx : String) :
    ∀ (sts : List Int) (anss : List String), sts.length ≤ anss.length →
      processAnswers tr ctx sts anss =
        some ((anss.take sts.length).map tr.answers,
          List.zipWith (fun a st => spanOf tr ctx a st) (anss.take sts.length) sts) := by
  intro sts
  induction sts with
  | nil => intro anss _; simp [processAnswers]
  | cons st sts ih =>
    intro anss h
    cases anss with
    | nil => simp at h
    | cons a rest =>
      have h' : sts.length ≤ rest.length := by simpa using h
      simp [processAnswers, ih rest h', List.take_succ_cons]

lemma getitem_spec (d : QuestionAnswerDataset) (i : Int) (ex : RawExample)
    (hix : pyGet d.data i = some ex)
    (hlen : ex.answer_start.length ≤ ex.answers.length) :
    d.getitem i = some (d.transforms.context ex.context, d.transforms.question ex.question,
      (ex.answers.take ex.answer_start.length).map d.transforms.answers,
      List.zipWith (fun a st => spanOf d.transforms ex.context a st)
        (ex.answers.take ex.answer_start.length) ex.answer_start) := by
  simp [QuestionAnswerDataset.getitem, hix,
    processAnswers_spec d.transforms ex.context ex.answer_start ex.answers hlen]

lemma getElem?_zipWith_some (f : α → β → γ) :
    ∀ (l1 : List α) (l2 : List β) (j : Nat) (a : α) (b : β),
      l1[j]? = some a → l2[j]? = some b →
      (List.zipWith f l1 l2)[j]? = some (f a b) := by
  intro l1
  induction l1 with
  | nil => intro l2 j a b h _; simp at h
  | cons x xs ih =>
    intro l2 j a b h1 h2
    cases l2 with
    | nil => simp at h2
    | cons y ys =>
      cases j with
      | zero =>
        simp only [List.getElem?_cons_zero, Option.some_inj] at h1 h2
        simp [h1, h2]
      | succ j =>
        simp only [List.getElem?_cons_succ, List.zipWith_cons_cons] at h1 h2 ⊢
        exact ih ys j a b h1 h2

lemma check_default_set_ok (split_ : SplitArg) (allowed : List String)
    (hvalid : ∀ n ∈ splitNames split_, n ∈ allowed) :
    check_default_set split_ allowed = .ok (splitNames split_) := by
  simp only [check_default_set]
  exact if_pos hvalid

lemma resolveVocab_ok (build : List (List String) → Vocab) (tok : Tokenizer)
    (trainData : List RawExample) (vocab? : Option Vocab) (split : List String)
    (hvoc : vocab? ≠ none ∨ "train" ∈ split) :
    resolveVocab build tok trainData vocab? split =
      .ok (chosenVocab build tok trainData vocab?) := by
  cases vocab? with
  | some v => rfl
  | none =>
    rcases hvoc with h | h
    · exact absurd rfl h
    · simp [resolveVocab, chosenVocab, h]

lemma setup_datasets_ok (basicTok : Tokenizer) (build : List (List String) → Vocab)
    (load : String → String → List RawExample) (root : String)
    (vocab? : Option Vocab) (tokenizer? : Option Tokenizer) (split_ : SplitArg)
    (hvalid : ∀ n ∈ splitNames split_, n ∈ ["train", "dev"])
    (hvoc : vocab? ≠ none ∨ "train" ∈ splitNames split_) :
    setup_datasets basicTok build load root vocab? tokenizer? split_ =
      wrap_datasets
        ((splitNames split_).map (fun item =>
          QuestionAnswerDataset.mk (load root item)
            (chosenVocab build (resolveTokenizer basicTok tokenizer?) (load root "train") vocab?)
            (mkTransforms (resolveTokenizer basicTok tokenizer?)
              (chosenVocab build (resolveTokenizer basicTok tokenizer?)
                (load root "train") vocab?))))
        split_ := by
  unfold setup_datasets
  rw [check_default_set_ok split_ ["train", "dev"] hvalid]
  dsimp only
  rw [resolveVocab_ok build (resolveTokenizer basicTok tokenizer?) (load root "train")
    vocab? (splitNames split_) hvoc]

/-- The raw example of the worked scenario in the spec. -/
def exScenario : RawExample :=
  { context := "A cat sat.", question := "What sat?", answers := ["cat"],
    answer_start := [2] }

/-- A concrete vocabulary for the worked scenario. -/
def vScenario : Vocab := fun t => if t = "cat" then 1 else if t = "A" then 2 else 0

/-- The worked scenario as a one-example dataset with the factory's transforms. -/
def dScenario : QuestionAnswerDataset :=
  { data := [exScenario], vocab := vScenario,
    transforms := mkTransforms whitespaceTokenize vScenario }

/-- The worked scenario with the unanswerable sentinel `-1`. -/
def exNoAnswer : RawExample :=
  { context := "A cat sat.", question := "What sat?", answers := ["cat"],
    answer_start := [-1] }

/-- One-example dataset for the unanswerable case. -/
def dNoAnswer : QuestionAnswerDataset :=
  { data := [exNoAnswer], vocab := vScenario,
    transforms := mkTransforms whitespaceTokenize vScenario }

/-- A raw example whose `answers` list is longer than its `answer_start` list. -/
def exExtraAnswers : RawExample :=
  { context := "A cat sat.", question := "What sat?", answers := ["cat", "sat."],
    answer_start := [2] }

/-- One-example dataset for the extra-answers case. -/
def dExtraAnswers : QuestionAnswerDataset :=
  { data := [exExtraAnswers], vocab := vScenario,
    transforms := mkTransforms whitespaceTokenize vScenario }

/-- A raw example whose answer text does not occur in the context: the
character offset cannot be aligned with the tokenization. -/
def exMisaligned : RawExample :=
  { context := "abc", question := "q", answers := ["xyz"], answer_start := [0] }

/-- A vocabulary distinguishing the misaligned answer from the context token. -/
def vMisaligned : Vocab := fun t => if t = "xyz" then 1 else 0

/-- One-example dataset for the misaligned case. -/
def dMisaligned : QuestionAnswerDataset :=
  { data := [exMisaligned], vocab := vMisaligned,
    transforms := mkTransforms whitespaceTokenize vMisaligned }

/-- Slice `xs[s..e]` inclusive: the token subsequence a span denotes. -/
def sliceIncl (xs : List Int) (s e : Nat) : List Int := (xs.drop s).take (e + 1 - s)

lemma slice_middle (f : α → Int) (A B C : List α) (hB : B ≠ []) :
    sliceIncl (List.map f (A ++ B ++ C)) A.length (A.length + B.length - 1) =
      List.map f B := by
  have hb : 1 ≤ B.length := List.length_pos.mpr hB
  unfold sliceIncl
  have he : A.length + B.length - 1 + 1 - A.length = B.length := by omega
  rw [he, List.map_append, List.map_append, List.append_assoc]
  rw [show A.length = (List.map f A).length from (List.length_map A f).symm]
  rw [List.drop_left]
  rw [show B.length = (List.map f B).length from (List.length_map B f).symm]
  exact List.take_left _ _

/-- C1: for every dataset, valid index `i` and answer `j` with
`answer_start[j] != -1`, `get(i)` computes the span start as the token count of
the context transform applied to the character prefix
`context[:answer_start[j]]`, the span end as start plus the token count of the
answers transform applied to `answers[j]` minus one, and applies the `ans_pos`
transform to the pair. -/
theorem C1_span_formula (d : QuestionAnswerDataset) (i : Int) (ex : RawExample)
    (hix : pyGet d.data i = some ex)
    (hlen : ex.answer_start.length ≤ ex.answers.length)
    (j : Nat) (stv : Int) (av : String)
    (hst : ex.answer_start[j]? = some stv) (hav : ex.answers[j]? = some av)
    (hne : stv ≠ -1) :
    ∃ c q ans pos, d.getitem i = some (c, q, ans, pos) ∧
      pos[j]? = some (d.transforms.ans_pos
        [((d.transforms.context (sliceTo ex.context stv)).length : Int),
         ((d.transforms.context (sliceTo ex.context stv)).length : Int) +
           ((d.transforms.answers av).length : Int) - 1]) := by
  refine ⟨_, _, _, _, getitem_spec d i ex hix hlen, ?_⟩
  have hj : j < ex.answer_start.length := (List.getElem?_eq_some.mp hst).1
  have htake : (ex.answers.take ex.answer_start.length)[j]? = some av := by
    rw [List.getElem?_take, if_pos hj]; exact hav
  rw [getElem?_zipWith_some _ _ _ j av stv htake hst]
  simp [spanOf, hne]

/-- Witness for C1 at the spec's worked scenario: context `A cat sat.`,
answer `cat` at character offset 2, whitespace tokenizer; the span is `[1, 1]`. -/
theorem C1_span_formula_witness :
    ∃ c q ans pos, dScenario.getitem 0 = some (c, q, ans, pos) ∧
      pos[0]? = some [1, 1] := by
  obtain ⟨c, q, ans, pos, h1, h2⟩ :=
    C1_span_formula dScenario 0 exScenario (by decide) (by decide) 0 2 "cat"
      (by decide) (by decide) (by decide)
  refine ⟨c, q, ans, pos, h1, ?_⟩
  rw [h2]
  decide

/-- C3: for every dataset, valid index `i` and answer `j` with
`answer_start[j] == -1`, the span returned at position `j` is the `ans_pos`
transform applied to `[-1, -1]`, regardless of context, answer text or
tokenizer. -/
theorem C3_no_answer_sentinel (d : QuestionAnswerDataset) (i : Int) (ex : RawExample)
    (hix : pyGet d.data i = some ex)
    (hlen : ex.answer_start.length ≤ ex.answers.length)
    (j : Nat) (av : String)
    (hst : ex.answer_start[j]? = some (-1)) (hav : ex.answers[j]? = some av) :
    ∃ c q ans pos, d.getitem i = some (c, q, ans, pos) ∧
      pos[j]? = some (d.transforms.ans_pos [-1, -1]) := by
  refine ⟨_, _, _, _, getitem_spec d i ex hix hlen, ?_⟩
  have hj : j < ex.answer_start.length := (List.getElem?_eq_some.mp hst).1
  have htake : (ex.answers.take ex.answer_start.length)[j]? = some av := by
    rw [List.getElem?_take, if_pos hj]; exact hav
  rw [getElem?_zipWith_some _ _ _ j av (-1) htake hst]
  simp [spanOf]

/-- Witness for C3: with sentinel start offset `-1` the returned span is
`[-1, -1]`. -/
theorem C3_no_answer_sentinel_witness :
    ∃ c q ans pos, dNoAnswer.getitem 0 = some (c, q, ans, pos) ∧
      pos[0]? = some [-1, -1] := by
  obtain ⟨c, q, ans, pos, h1, h2⟩ :=
    C3_no_answer_sentinel dNoAnswer 0 exNoAnswer (by decide) (by decide) 0 "cat"
      (by decide) (by decide)
  refine ⟨c, q, ans, pos, h1, ?_⟩
  rw [h2]
  decide

/-- C10: the per-answer loop of `get(i)` is driven by `answer_start`: when the
`answers` list is at least as long as `answer_start`, both returned lists have
exactly `len(answer_start)` entries, the `j`-th encoded answer being the
answers transform of `answers[j]` and the `j`-th span the one recomputed for
`answers[j]` and `answer_start[j]`. -/
theorem C10_loop_driven_by_answer_start (d : QuestionAnswerDataset) (i : Int)
    (ex : RawExample) (hix : pyGet d.data i = some ex)
    (hlen : ex.answer_start.length ≤ ex.answers.length) :
    ∃ c q ans pos, d.getitem i = some (c, q, ans, pos) ∧
      ans.length = ex.answer_start.length ∧ pos.length = ex.answer_start.length ∧
      ∀ (j : Nat) (av : String) (stv : Int),
        ex.answers[j]? = some av → ex.answer_start[j]? = some stv →
        ans[j]? = some (d.transforms.answers av) ∧
        pos[j]? = some (spanOf d.transforms ex.context av stv) := by
  refine ⟨_, _, _, _, getitem_spec d i ex hix hlen, ?_, ?_, ?_⟩
  · simp only [List.length_map, List.length_take]
    omega
  · simp only [List.length_zipWith, List.length_take]
    omega
  · intro j av stv hav hst
    have hj : j < ex.answer_start.length := (List.getElem?_eq_some.mp hst).1
    have htake : (ex.answers.take ex.answer_start.length)[j]? = some av := by
      rw [List.getElem?_take, if_pos hj]; exact hav
    constructor
    · rw [List.getElem?_map, htake]; rfl
    · exact getElem?_zipWith_some _ _ _ j av stv htake hst

/-- Witness for C10: with two answers but one start offset, both returned lists
have one entry (the length of `answer_start`, not of `answers`). -/
theorem C10_loop_driven_by_answer_start_witness :
    ∃ c q ans pos, dExtraAnswers.getitem 0 = some (c, q, ans, pos) ∧
      ans.length = 1 ∧ pos.length = 1 ∧ exExtraAnswers.answers.length = 2 := by
  obtain ⟨c, q, ans, pos, h1, h2, h3, _⟩ :=
    C10_loop_driven_by_answer_start dExtraAnswers 0 exExtraAnswers (by decide) (by decide)
  exact ⟨c, q, ans, pos, h1, h2, h3, by decide⟩

/-- C2 counterexample: with the whitespace tokenizer and vocabulary
`vMisaligned`, the example `context="abc"`, `answers=["xyz"]`,
`answer_start=[0]` has `answer_start[0] != -1`, yet the recomputed span is
`[0, 0]` and the token subsequence of the encoded context at `[0, 0]` is `[0]`
(the encoded token `abc`), not the encoding `[1]` of the answer `xyz`: the
claimed subsequence equality fails for this tokenizer and vocabulary. -/
theorem C2_subsequence_counterexample :
    exMisaligned.answer_start = [0] ∧
      dMisaligned.getitem 0 = some ([0], [0], [[1]], [[0, 0]]) ∧
      sliceIncl [0] 0 0 ≠ [1] := by
  refine ⟨by decide, by decide, by decide⟩

/-- C2 (amended): for every tokenizer and vocabulary, and every raw answer with
`answer_start[j] != -1`, PROVIDED the tokenizer splits the context as the
tokens of the character prefix `context[:answer_start[j]]` followed by the
tokens of `answers[j]` followed by a remainder, and `answers[j]` tokenizes to
at least one token, the recomputed span `[start, end]` satisfies
`end >= start >= 0` and the token subsequence of the encoded context from
`start` to `end` inclusive equals the encoding of `answers[j]` under the same
transform. -/
theorem C2_span_content (tok : Tokenizer) (v : Vocab) (ctx ansText : String)
    (st : Int) (rest : List String) (hst : st ≠ -1)
    (hsplit : tok ctx = tok (sliceTo ctx st) ++ tok ansText ++ rest)
    (hne : tok ansText ≠ []) :
    ∃ s e : Nat, s ≤ e ∧
      spanOf (mkTransforms tok v) ctx ansText st = totensor [(s : Int), (e : Int)] ∧
      sliceIncl ((mkTransforms tok v).context ctx) s e =
        (mkTransforms tok v).answers ansText := by
  have h1 : 1 ≤ (tok ansText).length := List.length_pos.mpr hne
  refine ⟨(tok (sliceTo ctx st)).length,
    (tok (sliceTo ctx st)).length + (tok ansText).length - 1, by omega, ?_, ?_⟩
  · simp only [spanOf, if_neg hst, mkTransforms, sequential_transforms, totensor,
      vocab_func, List.length_map]
    congr 1
    have : (((tok (sliceTo ctx st)).length + (tok ansText).length - 1 : Nat) : Int) =
        ((tok (sliceTo ctx st)).length : Int) + ((tok ansText).length : Int) - 1 := by
      omega
    rw [this]
  · simp only [mkTransforms, sequential_transforms, totensor, vocab_func, List.map_map]
    rw [hsplit]
    exact slice_middle _ (tok (sliceTo ctx st)) (tok ansText) rest hne

/-- Witness for C2 (amended) at the aligned worked scenario: context
`A cat sat.`, answer `cat` at character offset 2, whitespace tokenizer. -/
theorem C2_span_content_witness :
    ∃ s e : Nat, s ≤ e ∧
      spanOf (mkTransforms whitespaceTokenize vScenario) "A cat sat." "cat" 2 =
        totensor [(s : Int), (e : Int)] ∧
      sliceIncl ((mkTransforms whitespaceTokenize vScenario).context "A cat sat.") s e =
        (mkTransforms whitespaceTokenize vScenario).answers "cat" :=
  C2_span_content whitespaceTokenize vScenario "A cat sat." "cat" 2 ["sat."]
    (by decide) (by decide) (by decide)

/-- C4 counterexample: on a dataset of length 1, the index `-1` lies outside
`[0, length)` but `get(-1)` succeeds (Python list indexing resolves negative
indices from the back), so not every out-of-range index fails. -/
theorem C4_negative_index_counterexample :
    ¬ (0 ≤ (-1 : Int) ∧ (-1 : Int) < (dScenario.len : Int)) ∧
      dScenario.getitem (-1) ≠ none := by
  refine ⟨by decide, by decide⟩

/-- C4 (amended): `length()` equals the exact number of raw examples supplied,
and `get(i)` fails with an index error for every `i` with `i >= length()` or
`i < -length()` — in particular for `i == length()`; indices in
`[-length(), 0)` instead resolve from the back per Python list semantics. -/
theorem C4_length_and_bounds (d : QuestionAnswerDataset) (i : Int)
    (h : (d.data.length : Int) ≤ i ∨ i < -(d.data.length : Int)) :
    d.len = d.data.length ∧ d.getitem i = none := by
  refine ⟨rfl, ?_⟩
  have hnone : pyGet d.data i = none := by
    unfold pyGet
    rcases h with h | h
    · rw [if_pos (by omega : (0 : Int) ≤ i)]
      exact List.getElem?_eq_none (by omega)
    · rw [if_neg (by omega : ¬ (0 : Int) ≤ i),
        if_neg (by omega : ¬ (0 : Int) ≤ (d.data.length : Int) + i)]
  unfold QuestionAnswerDataset.getitem
  rw [hnone]

/-- Witness for C4 (amended): on the one-example dataset, `get(1)` (that is,
`get(length())`) fails with an index error. -/
theorem C4_length_and_bounds_witness :
    dScenario.len = dScenario.data.length ∧ dScenario.getitem 1 = none :=
  C4_length_and_bounds dScenario 1 (by decide)

/-- C9 counterexample: the default storage root of `SQuAD1` is the `.data`
directory, not the current location `"."` the claim states. -/
theorem C9_root_default_counterexample :
    SQuAD1_defaults.root = ".data" ∧ SQuAD1_defaults.root ≠ "." := by
  refine ⟨by decide, by decide⟩

/-- C9 (amended): both `SQuAD1` and `SQuAD2` have the parameter defaults
`root=".data"`, `vocab=None`, `tokenizer=None`, `split=("train", "dev")`, and
both delegate to `_setup_datasets` with the supplied arguments. -/
theorem C9_factory_defaults :
    SQuAD1_defaults = FactoryDefaults.mk ".data" none none (.multi ["train", "dev"]) ∧
    SQuAD2_defaults = FactoryDefaults.mk ".data" none none (.multi ["train", "dev"]) ∧
    (∀ basicTok build load root vocab? tokenizer? split_,
      SQuAD1 basicTok build load root vocab? tokenizer? split_ =
        setup_datasets basicTok build load root vocab? tokenizer? split_ ∧
      SQuAD2 basicTok build load root vocab? tokenizer? split_ =
        setup_datasets basicTok build load root vocab? tokenizer? split_) :=
  ⟨rfl, rfl, fun _ _ _ _ _ _ _ => ⟨rfl, rfl⟩⟩

/-- C5: the factory raises a usage error at factory-call time — before any
dataset is returned — if and only if some requested split name is not in
`{train, dev}`, or no pre-built vocabulary is supplied and `train` is not among
the requested splits. -/
theorem C5_factory_error_iff (basicTok : Tokenizer) (build : List (List String) → Vocab)
    (load : String → String → List RawExample) (root : String)
    (vocab? : Option Vocab) (tokenizer? : Option Tokenizer) (split_ : SplitArg) :
    (setup_datasets basicTok build load root vocab? tokenizer? split_).isErr = true ↔
      (¬ ∀ n ∈ splitNames split_, n ∈ ["train", "dev"]) ∨
        (vocab? = none ∧ "train" ∉ splitNames split_) := by
  by_cases hvalid : ∀ n ∈ splitNames split_, n ∈ ["train", "dev"]
  · by_cases hvoc : vocab? = none ∧ "train" ∉ splitNames split_
    · obtain ⟨hn, ht⟩ := hvoc
      subst hn
      have herr : (setup_datasets basicTok build load root none tokenizer? split_).isErr
          = true := by
        simp only [setup_datasets, check_default_set_ok split_ ["train", "dev"] hvalid]
        simp [resolveVocab, ht, Except.isErr]
      exact iff_of_true herr (Or.inr ⟨rfl, ht⟩)
    · have hvoc' : vocab? ≠ none ∨ "train" ∈ splitNames split_ := by
        by_cases h : vocab? = none
        · rcases not_and_or.mp hvoc with h' | h'
          · exact absurd h h'
          · exact Or.inr (not_not.mp h')
        · exact Or.inl h
      have hok : (setup_datasets basicTok build load root vocab? tokenizer? split_).isErr
          = false := by
        rw [setup_datasets_ok basicTok build load root vocab? tokenizer? split_
          hvalid hvoc']
        cases split_ with
        | single n => rfl
        | multi ns => rfl
      refine iff_of_false (fun hc => ?_) (fun hc => hc.elim (fun h => h hvalid) hvoc)
      rw [hok] at hc
      exact Bool.false_ne_true hc
  · have herr : (setup_datasets basicTok build load root vocab? tokenizer? split_).isErr
        = true := by
      simp only [setup_datasets, check_default_set]
      rw [if_neg hvalid]
      rfl
    exact iff_of_true herr (Or.inl hvalid)

/-- C6: the factory's return shape mirrors the split argument: a collection of
split names yields one dataset per requested split in the same order, while a
single split name given as a string yields that single dataset directly. -/
theorem C6_return_shape (basicTok : Tokenizer) (build : List (List String) → Vocab)
    (load : String → String → List RawExample) (root : String)
    (vocab? : Option Vocab) (tokenizer? : Option Tokenizer) :
    (∀ names : List String, (∀ n ∈ names, n ∈ ["train", "dev"]) →
      (vocab? ≠ none ∨ "train" ∈ names) →
      ∃ ds, setup_datasets basicTok build load root vocab? tokenizer? (.multi names) =
          .ok (.multi ds) ∧ ds.length = names.length ∧
        ∀ (j : Nat) (n : String), names[j]? = some n →
          ∃ d, ds[j]? = some d ∧ d.data = load root n) ∧
    (∀ n : String, n ∈ ["train", "dev"] → (vocab? ≠ none ∨ n = "train") →
      ∃ d, setup_datasets basicTok build load root vocab? tokenizer? (.single n) =
          .ok (.single d) ∧ d.data = load root n) := by
  constructor
  · intro names hvalid hvoc
    rw [setup_datasets_ok basicTok build load root vocab? tokenizer? (.multi names)
      hvalid hvoc]
    refine ⟨_, rfl, by simp [splitNames], ?_⟩
    intro j n hj
    rw [show splitNames (SplitArg.multi names) = names from rfl, List.getElem?_map, hj]
    exact ⟨_, rfl, rfl⟩
  · intro n hn hvoc
    have hvalid : ∀ m ∈ splitNames (.single n), m ∈ ["train", "dev"] := by
      intro m hm
      simp only [splitNames, List.mem_singleton] at hm
      exact hm ▸ hn
    have hvoc' : vocab? ≠ none ∨ "train" ∈ splitNames (.single n) := by
      rcases hvoc with h | h
      · exact Or.inl h
      · exact Or.inr (by simp [splitNames, h])
    rw [setup_datasets_ok basicTok build load root vocab? tokenizer? (.single n)
      hvalid hvoc']
    exact ⟨_, rfl, rfl⟩

/-- Witness for C6: requesting `("train", "dev")` yields exactly two datasets,
train first; requesting the single string `train` yields a single dataset. -/
theorem C6_return_shape_witness :
    (∃ ds, setup_datasets whitespaceTokenize (fun _ => vScenario) (fun _ _ => [exScenario])
        ".data" none none (.multi ["train", "dev"]) = .ok (.multi ds) ∧
      ds.length = 2) ∧
    (∃ d, setup_datasets whitespaceTokenize (fun _ => vScenario) (fun _ _ => [exScenario])
        ".data" none none (.single "train") = .ok (.single d)) := by
  obtain ⟨h1, h2⟩ := C6_return_shape whitespaceTokenize (fun _ => vScenario)
    (fun _ _ => [exScenario]) ".data" none none
  constructor
  · obtain ⟨ds, hds, hlen, _⟩ := h1 ["train", "dev"] (by decide) (Or.inr (by decide))
    exact ⟨ds, hds, hlen⟩
  · obtain ⟨d, hd, _⟩ := h2 "train" (by decide) (Or.inr rfl)
    exact ⟨d, hd⟩

/-- C7: with no supplied vocabulary, the token stream fed to the vocabulary
builder is, for each train example in order, the tokenized context, then the
tokenized question, then the concatenation of the tokenized answers. -/
theorem C7_vocab_token_stream (tt : Tokenizer) (data : List RawExample)
    (build : List (List String) → Vocab) (split : List String)
    (h : "train" ∈ split) :
    apply_transform tt data =
      data.map (fun ex => tt ex.context ++ tt ex.question ++ (ex.answers.map tt).flatten) ∧
    resolveVocab build tt data none split =
      .ok (build (data.map (fun ex =>
        tt ex.context ++ tt ex.question ++ (ex.answers.map tt).flatten))) := by
  refine ⟨apply_transform_eq_map tt data, ?_⟩
  simp [resolveVocab, h, apply_transform_eq_map]

/-- Witness for C7: on the worked scenario, the stream for the one train
example is context tokens, question tokens, then the answer tokens. -/
theorem C7_vocab_token_stream_witness :
    apply_transform whitespaceTokenize [exScenario] =
      [["A", "cat", "sat.", "What", "sat?", "cat"]] ∧
    ("train" ∈ (["train"] : List String)) := by
  refine ⟨?_, by decide⟩
  have h := (C7_vocab_token_stream whitespaceTokenize [exScenario] (fun _ => vScenario)
    ["train"] (by decide)).1
  rw [h]
  decide

/-- C8: the factory builds exactly one shared transform set: the context,
question and answers fields are all the same composed function
tokenizer → vocabulary-index-lookup → 64-bit-integer-tensor, the ans_pos field
is only the integer-tensor conversion, and every produced dataset shares this
transform set and one vocabulary. -/
theorem C8_shared_transforms (basicTok : Tokenizer) (build : List (List String) → Vocab)
    (load : String → String → List RawExample) (root : String)
    (vocab? : Option Vocab) (tokenizer? : Option Tokenizer) (split_ : SplitArg)
    (hvalid : ∀ n ∈ splitNames split_, n ∈ ["train", "dev"])
    (hvoc : vocab? ≠ none ∨ "train" ∈ splitNames split_) :
    ∃ (w : Wrapped QuestionAnswerDataset) (v : Vocab),
      setup_datasets basicTok build load root vocab? tokenizer? split_ = .ok w ∧
      ∀ d ∈ w.toList,
        d.vocab = v ∧
        d.transforms.context =
          sequential_transforms (resolveTokenizer basicTok tokenizer?)
            (vocab_func v) totensor ∧
        d.transforms.question = d.transforms.context ∧
        d.transforms.answers = d.transforms.context ∧
        d.transforms.ans_pos = totensor := by
  rw [setup_datasets_ok basicTok build load root vocab? tokenizer? split_ hvalid hvoc]
  cases split_ with
  | multi ns =>
    refine ⟨_, chosenVocab build (resolveTokenizer basicTok tokenizer?)
      (load root "train") vocab?, rfl, ?_⟩
    intro d hd
    simp only [Wrapped.toList] at hd
    obtain ⟨n, -, rfl⟩ := List.mem_map.mp hd
    exact ⟨rfl, rfl, rfl, rfl, rfl⟩
  | single n =>
    refine ⟨_, chosenVocab build (resolveTokenizer basicTok tokenizer?)
      (load root "train") vocab?, rfl, ?_⟩
    intro d hd
    simp only [Wrapped.toList, List.mem_singleton] at hd
    subst hd
    exact ⟨rfl, rfl, rfl, rfl, rfl⟩

/-- Witness for C8 at a concrete factory call on both splits. -/
theorem C8_shared_transforms_witness :
    ∃ (w : Wrapped QuestionAnswerDataset) (v : Vocab),
      setup_datasets whitespaceTokenize (fun _ => vScenario) (fun _ _ => [exScenario])
        ".data" none none (.multi ["train", "dev"]) = .ok w ∧
      ∀ d ∈ w.toList,
        d.vocab = v ∧
        d.transforms.context =
          sequential_transforms (resolveTokenizer whitespaceTokenize none)
            (vocab_func v) totensor ∧
        d.transforms.question = d.transforms.context ∧
        d.transforms.answers = d.transforms.context ∧
        d.transforms.ans_pos = totensor :=
  C8_shared_transforms whitespaceTokenize (fun _ => vScenario) (fun _ _ => [exScenario])
    ".data" none none (.multi ["train", "dev"]) (by decide) (Or.inr (by decide))
